import Mathlib

/-!
Shallow embedding of the Validations-Synthesizer core: the example decider
(src/tyrell/decider/example_decider.py), the interactive multi-candidate
synthesizer (src/forest/synthesizer/multiple_synthesizer.py), the iterative
deepening drivers (src/forest/synthesizer/ktree_synthesizer.py and
src/validate.py), and the single-candidate loop
(src/tyrell/synthesizer/singleSynthesizer.py).

Components of the repository that are not under src/ (the Interpreter, the
Enumerator, the Distinguisher, the Capturer, forest.utils.is_regex,
re.fullmatch) appear as function parameters; an enumerator is modelled by the
stream of programs its successive `next()` calls produce, with the empty list
meaning exhaustion.  Fallible Python code (raised exceptions) is modelled with
`Except`.
-/

namespace ValidationsSynth

/-- Labeled example record (the `Example` named tuple,
src/tyrell/decider/example_decider.py lines 7-9): an input and its recorded
label/output. -/
structure Example (α β : Type) where
  input : α
  output : β
deriving DecidableEq

/-- Decider verdict.  Modelled from the spec: the `tyrell.decider.result`
module (`ok()` / `bad(why)`) is not under src/; the spec gives the contract
`analyze(program) -> Ok | Bad(predicates)`, and callers use `res.is_ok()` and
`res.why()`.  `bad` carries the optional predicates returned by `why()`. -/
inductive Result (Preds : Type) where
  | ok : Result Preds
  | bad : Option Preds → Result Preds
deriving DecidableEq

/-- `Result.is_ok()`. -/
def Result.is_ok {Preds : Type} : Result Preds → Bool
  | .ok => true
  | .bad _ => false

/-- `Result.why()`. -/
def Result.why {Preds : Type} : Result Preds → Option Preds
  | .ok => none
  | .bad w => w

/-- Startup faults raised by the constructors: the failing `assert` in
`MultipleSynthesizer.__init__` (multiple_synthesizer.py line 42) and the
`ValueError` in `ExampleDecider.__init__` (example_decider.py lines 19-21). -/
inductive InitErr where
  | assertionError : InitErr
  | valueError : InitErr
deriving DecidableEq

namespace ExampleDecider

/-- `_equal_output` (example_decider.py lines 67-68): the recorded output is
compared with the interpreter's evaluation of the program on the input.  The
interpreter (`self._interpreter.eval`) is not under src/ and is the parameter
`ev`. -/
def equal_output {Prog α β : Type} [DecidableEq β] (ev : Prog → α → β)
    (program : Prog) (inp : α) (desired_output : β) : Bool :=
  decide (desired_output = ev program inp)

/-- `get_failed_examples` (lines 40-48): the sublist of examples the program
fails on. -/
def get_failed_examples {Prog α β : Type} [DecidableEq β] (ev : Prog → α → β)
    (examples : List (Example α β)) (prog : Prog) : List (Example α β) :=
  examples.filter (fun x => ! equal_output ev prog x.input x.output)

/-- `has_failed_examples` (lines 50-56): whether the program fails on any
recorded example. -/
def has_failed_examples {Prog α β : Type} [DecidableEq β] (ev : Prog → α → β)
    (examples : List (Example α β)) (prog : Prog) : Bool :=
  examples.any (fun x => ! equal_output ev prog x.input x.output)

/-- `analyze` (lines 58-65): `bad()` when some example fails, else `ok()`.
`Preds` is the predicate type of the verdict (this basic decider never attaches
predicates). -/
def analyze (Preds : Type) {Prog α β : Type} [DecidableEq β] (ev : Prog → α → β)
    (examples : List (Example α β)) (prog : Prog) : Result Preds :=
  if has_failed_examples ev examples prog then .bad none else .ok

/-- `add_example` (lines 36-38): append a new example record to the running
list. -/
def add_example {α β : Type} (examples : List (Example α β)) (ex_in : α)
    (ex_out : β) : List (Example α β) :=
  examples ++ [⟨ex_in, ex_out⟩]

/-- `__init__` (lines 16-22): raises `ValueError` when given an empty example
list, otherwise stores the list. -/
def init {α β : Type} (examples : List (Example α β)) :
    Except InitErr (List (Example α β)) :=
  if examples.length = 0 then .error .valueError else .ok examples

end ExampleDecider

/-- The mutable search state of a `MultipleSynthesizer` instance that the
embedded methods read or write (multiple_synthesizer.py lines 29, 47, 54,
58-70).  `PC` is the candidate type — `(Program, Captures)` pairs in
`try_for_depth`.  The recorded examples are those held by the decider
(`self._decider`, reached through `add_example`). -/
structure SynthState (PC : Type) where
  programs : List PC
  indistinguishable : Nat
  examples : List (Example (List String) Bool)
  num_interactions : Nat
  num_enumerated : Nat
  die : Bool
deriving DecidableEq

/-- Python attribute lookup `self.<name>` for the list-valued attributes that
`KTreeSynthesizer.synthesize` reads.  `MultipleSynthesizer.__init__` assigns
`programs` (multiple_synthesizer.py line 60); no method in the class hierarchy
ever assigns `solutions`, so looking that name up raises
`AttributeError(name)`, modelled as `.error name`. -/
def SynthState.getListAttr {PC : Type} (st : SynthState PC) (name : String) :
    Except String (List PC) :=
  if name = "programs" then .ok st.programs else .error name

/-- The Distinguisher's output 4-tuple
`dist_input, keep_if_valid, keep_if_invalid, unknown` (multiple_synthesizer.py
lines 111-112); the Distinguisher itself is not under src/. -/
structure DistOutput (PC : Type) where
  dist_input : Option String
  keep_if_valid : List PC
  keep_if_invalid : List PC
  unknown : List PC
deriving DecidableEq

namespace MultipleSynthesizer

/-- `yes_values` (multiple_synthesizer.py line 17).  A Python set; only
membership is used, so a list suffices. -/
def yes_values : List String := ["yes", "valid", "true", "1", "+", "v", "y", "t"]

/-- `no_values` (line 18). -/
def no_values : List String := ["no", "invalid", "false", "0", "-", "i", "n", "f"]

/-- Python `str.lower()`, character by character (`Char.toLower` agrees with
Python on the ASCII answer tokens involved). -/
def str_lower (s : String) : String := ⟨s.data.map Char.toLower⟩

/-- Python `str.rstrip()` with no argument: remove trailing whitespace. -/
def str_rstrip (s : String) : String :=
  ⟨(s.data.reverse.dropWhile Char.isWhitespace).reverse⟩

/-- The classification `interact` applies to one raw answer line (lines
162-168): `x.lower().rstrip()` is tested for membership in `yes_values`, then
in `no_values`; any other line is unrecognized. -/
def classify (x : String) : Option Bool :=
  if yes_values.contains (str_rstrip (str_lower x)) then some true
  else if no_values.contains (str_rstrip (str_lower x)) then some false
  else none

/-- The resolution loop `for regex in unknown: ...` of `distinguish` (lines
121-126): each still-unresolved candidate is appended to `keep_if_valid` when
its rendered regex full-matches the distinguishing input, else to
`keep_if_invalid`.  `evalI` is the decider interpreter's `eval` and
`fm pattern s` the truthiness of `re.fullmatch(pattern, s)` (both outside
src/). -/
def resolve_unknown {PC : Type} (evalI : PC → String)
    (fm : String → String → Bool) (dist_input : String)
    (keep_if_valid keep_if_invalid unknown : List PC) : List PC × List PC :=
  unknown.foldl
    (fun acc r =>
      if fm (evalI r) dist_input then (acc.1 ++ [r], acc.2)
      else (acc.1, acc.2 ++ [r]))
    (keep_if_valid, keep_if_invalid)

/-- `min(self.programs, key=lambda r: len(self._printer.eval(r)))` (lines
134-135): the first element of least rendered length; Python's `min` raises on
an empty list, hence the `Option`.  `printer_eval` is `RegexInterpreter.eval`
(outside src/). -/
def smallest_regex {PC : Type} (printer_eval : PC → String) :
    List PC → Option PC
  | [] => none
  | p :: ps =>
    some (ps.foldl
      (fun best q =>
        if (printer_eval q).length < (printer_eval best).length then q
        else best)
      p)

/-- The `else` branch of `distinguish` (lines 131-136): the candidates are
indistinguishable, so the counter is incremented and only the `min`-selected
candidate is kept.  (On an empty candidate list Python's `min` would raise
`ValueError`; the branch is only reached with at least two candidates and the
claims concern non-empty sets, so that case is mapped to an empty kept
list.) -/
def indist_branch {PC : Type} (printer_eval : PC → String)
    (st : SynthState PC) : SynthState PC :=
  { st with
    indistinguishable := st.indistinguishable + 1,
    programs :=
      match smallest_regex printer_eval st.programs with
      | some p => [p]
      | none => [] }

/-- The selection rule as the C4 claim states it — fewest AST nodes, ties
broken by shortest rendered form, first minimum — written from the spec's
words, for comparison against `smallest_regex` (the code's rule). -/
def claimed_smallest {PC : Type} (nodes : PC → Nat)
    (printer_eval : PC → String) : List PC → Option PC
  | [] => none
  | p :: ps =>
    some (ps.foldl
      (fun best q =>
        if nodes q < nodes best ∨
            (nodes q = nodes best ∧
              (printer_eval q).length < (printer_eval best).length) then q
        else best)
      p)

/-- `interact` (lines 157-176), with the blocking `input()` modelled as a list
of pending stdin lines; `none` means every supplied line was unrecognized (the
Python loop would still be waiting).  On a recognized answer the loop exits:
the input is recorded through the decider's `add_example` with the answered
label and the candidate set is replaced by the matching partition; an
unrecognized line only reprompts. -/
def interact {PC : Type} (dist_input : String)
    (keep_if_valid keep_if_invalid : List PC) (st : SynthState PC) :
    List String → Option (SynthState PC)
  | [] => none
  | x :: rest =>
    if yes_values.contains (str_rstrip (str_lower x)) then
      some { st with
             examples := ExampleDecider.add_example st.examples [dist_input] true,
             programs := keep_if_valid }
    else if no_values.contains (str_rstrip (str_lower x)) then
      some { st with
             examples := ExampleDecider.add_example st.examples [dist_input] false,
             programs := keep_if_invalid }
    else interact dist_input keep_if_valid keep_if_invalid st rest

/-- `auto_distinguish` (lines 178-188): the oracle answer is the truthiness of
`re.fullmatch(self.ground_truth, dist_input)`; on a full match the input is
recorded valid and `keep_if_valid` kept, otherwise recorded invalid and
`keep_if_invalid` kept.  No interaction with a human occurs. -/
def auto_distinguish {PC : Type} (fm : String → String → Bool)
    (ground_truth dist_input : String)
    (keep_if_valid keep_if_invalid : List PC) (st : SynthState PC) :
    SynthState PC :=
  if fm ground_truth dist_input then
    { st with
      examples := ExampleDecider.add_example st.examples [dist_input] true,
      programs := keep_if_valid }
  else
    { st with
      examples := ExampleDecider.add_example st.examples [dist_input] false,
      programs := keep_if_invalid }

/-- The body of `distinguish` (lines 107-136) after the Distinguisher call,
taking the Distinguisher's 4-tuple `d`.  `oracle` abstracts whichever of
`interact` / `auto_distinguish` the `auto_interaction` flag selects; the
second component of the value counts how many times the oracle is consulted in
the call. -/
def distinguishWith {PC : Type} (evalI : PC → String)
    (fm : String → String → Bool)
    (oracle : String → List PC → List PC → SynthState PC → SynthState PC)
    (printer_eval : PC → String) (d : DistOutput PC) (st : SynthState PC) :
    SynthState PC × Nat :=
  match d.dist_input with
  | some din =>
    let kvki := resolve_unknown evalI fm din d.keep_if_valid d.keep_if_invalid
      d.unknown
    (oracle din kvki.1 kvki.2
      { st with num_interactions := st.num_interactions + 1 }, 1)
  | none => (indist_branch printer_eval st, 0)

/-- `distinguish` (lines 107-136): call the Distinguisher `distr` on the
current candidate set and proceed on its output. -/
def distinguish {PC : Type} (distr : List PC → DistOutput PC)
    (evalI : PC → String) (fm : String → String → Bool)
    (oracle : String → List PC → List PC → SynthState PC → SynthState PC)
    (printer_eval : PC → String) (st : SynthState PC) : SynthState PC × Nat :=
  distinguishWith evalI fm oracle printer_eval (distr st.programs) st

/-- `self.max_indistinguishable = 3` (line 57). -/
def max_indistinguishable : Nat := 3

/-- The configuration assertion of `__init__` (lines 40-43): when
auto-interaction is requested, `assert len(self.ground_truth) > 0 and
is_regex(self.ground_truth)`.  `is_regex` is `forest.utils.is_regex` (outside
src/), a parameter.  A failing assert raises before `_enumerator` exists
(line 52 sets it to `None`; enumerators are only created inside
`synthesize`), so no enumeration can start. -/
def initCheck (is_regex : String → Bool) (auto_interaction : Bool)
    (ground_truth : String) : Except InitErr Unit :=
  if auto_interaction then
    if 0 < ground_truth.length ∧ is_regex ground_truth then .ok ()
    else .error .assertionError
  else .ok ()

end MultipleSynthesizer

/-- The collaborators `try_for_depth` consults, all outside src/:
`RegexDecider.analyze` (which evaluates through the interpreter and may raise
an interpreter error, hence the `Except`), the Capturer's
`synthesize_capturing_groups`, the Distinguisher, the decider interpreter and
the printer (both `RegexInterpreter`), `re.fullmatch`, and the oracle
interaction (`interact` or `auto_distinguish`). -/
structure ForestParams (Prog Caps IErr Preds : Type) where
  analyze : Prog → Except IErr (Result Preds)
  capture : Prog → Option Caps
  distr : List (Prog × Caps) → DistOutput (Prog × Caps)
  evalI : Prog × Caps → String
  printer_eval : Prog × Caps → String
  fm : String → String → Bool
  oracle : String → List (Prog × Caps) → List (Prog × Caps) →
    SynthState (Prog × Caps) → SynthState (Prog × Caps)

namespace MultipleSynthesizer

/-- `try_for_depth` (multiple_synthesizer.py lines 190-238) with the
enumerator's output made explicit: `stream` is the sequence of programs its
successive `next()` calls return, the empty list meaning exhaustion
(`enumerate`, lines 138-153, increments `num_enumerated` before each `next`).
There is no try/except in this method, so an interpreter error raised by
`self._decider.analyze` propagates out — recorded by the `Except` result.
`enumerator.update` (lines 233-236) only mutates the external enumerator,
which the stream already abstracts, and `synthesize_capture_conditions`
(line 215) only mutates the external capturer; neither call is tracked. -/
def try_for_depth {Prog Caps IErr Preds : Type}
    (P : ForestParams Prog Caps IErr Preds) :
    List Prog → SynthState (Prog × Caps) →
    Except IErr (SynthState (Prog × Caps))
  | [], st => .ok { st with num_enumerated := st.num_enumerated + 1 }
  | regex :: rest, st =>
    let st1 : SynthState (Prog × Caps) :=
      { st with num_enumerated := st.num_enumerated + 1 }
    if st1.die then .ok st1
    else
      match P.analyze regex with
      | .error e => .error e
      | .ok res =>
        if res.is_ok then
          let st2 : SynthState (Prog × Caps) :=
            match P.capture regex with
            | some c => { st1 with programs := st1.programs ++ [(regex, c)] }
            | none => st1
          let st3 : SynthState (Prog × Caps) :=
            if 2 ≤ st2.programs.length then
              (distinguishWith P.evalI P.fm P.oracle P.printer_eval
                (P.distr st2.programs) st2).1
            else st2
          if max_indistinguishable ≤ st3.indistinguishable then .ok st3
          else try_for_depth P rest st3
        else try_for_depth P rest st1

end MultipleSynthesizer

/-- Exceptions that can escape `KTreeSynthesizer.synthesize`: an uncaught
interpreter error from the loop body, or a Python `AttributeError` from an
attribute lookup. -/
inductive KErr (IErr : Type) where
  | interp : IErr → KErr IErr
  | attributeError : String → KErr IErr
deriving DecidableEq

namespace KTreeSynthesizer

/-- `self.max_depth = 6` (ktree_synthesizer.py line 16). -/
def max_depth : Nat := 6

/-- `range(3, self.max_depth + 1)` (line 21): the depths tried, in order. -/
def depths : List Nat := List.range' 3 (max_depth - 2)

/-- The loop of `KTreeSynthesizer.synthesize` (lines 18-31): per depth, a
fresh `KTreeEnumerator(self.dsl, dep)` is built (external to src/;
`enumStream dep` is the program stream it would produce) and `try_for_depth`
runs; then `if len(self.solutions) > 0` performs an attribute lookup of
`solutions`, which is never assigned, before `self.solutions[0]` would be
returned or `self.die` checked; falling off the loop returns `None`. -/
def synthesizeLoop {Prog Caps IErr Preds : Type}
    (P : ForestParams Prog Caps IErr Preds) (enumStream : Nat → List Prog) :
    List Nat → SynthState (Prog × Caps) →
    Except (KErr IErr) (Option (Prog × Caps))
  | [], _ => .ok none
  | dep :: deps, st =>
    match MultipleSynthesizer.try_for_depth P (enumStream dep) st with
    | .error e => .error (.interp e)
    | .ok st1 =>
      match st1.getListAttr "solutions" with
      | .error name => .error (.attributeError name)
      | .ok sols =>
        if 0 < sols.length then .ok sols.head?
        else if st1.die then .ok none
        else synthesizeLoop P enumStream deps st1

/-- `KTreeSynthesizer.synthesize` (lines 18-31). -/
def synthesize {Prog Caps IErr Preds : Type}
    (P : ForestParams Prog Caps IErr Preds) (enumStream : Nat → List Prog)
    (st : SynthState (Prog × Caps)) :
    Except (KErr IErr) (Option (Prog × Caps)) :=
  synthesizeLoop P enumStream depths st

end KTreeSynthesizer

namespace SingleSynthesizer

/-- `SingleSynthesizer.synthesize` (singleSynthesizer.py lines 30-69) with the
enumerator's stream explicit (`next()` pops the head, empty meaning
exhaustion) and its `update` calls logged in the second component.  `analyze`
may raise an interpreter error (`Except`); the `try/except InterpreterError`
of lines 46-65 catches it, converts it through the decider's
`analyze_interpreter_error` (`aie`) into predicates passed to `update`, and
moves on to the next program — so the result carries no error outcome.  A
rejected program's `res.why()` predicates are likewise passed to `update`;
an accepted program is returned at once. -/
def synthesize {Prog IErr Preds : Type}
    (analyze : Prog → Except IErr (Result Preds)) (aie : IErr → Option Preds) :
    List Prog → Option Prog × List (Option Preds)
  | [] => (none, [])
  | program :: rest =>
    match analyze program with
    | .ok res =>
      if res.is_ok then (some program, [])
      else
        let r := synthesize analyze aie rest
        (r.1, res.why :: r.2)
    | .error e =>
      let r := synthesize analyze aie rest
      (r.1, aie e :: r.2)

end SingleSynthesizer

namespace Validate

/-- `maxdep = 6` (validate.py line 39). -/
def maxdep : Nat := 6

/-- The depth loop of `main` (validate.py lines 40-55): for each depth a fresh
`SmtEnumerator(dsl, depth=dep, loc=4)` and `Synthesizer` are built and run
(`synthAt dep` abstracts that, being the program the run at depth `dep`
returns, if any); the first depth that yields a program returns it
immediately. -/
def mainLoop {Prog : Type} (synthAt : Nat → Option Prog) :
    List Nat → Option (Nat × Prog)
  | [] => none
  | dep :: deps =>
    match synthAt dep with
    | some program => some (dep, program)
    | none => mainLoop synthAt deps

/-- `main` (validate.py lines 18-55): `for dep in range(3, maxdep + 1)`;
falling off the loop logs "Solution not found!". -/
def main {Prog : Type} (synthAt : Nat → Option Prog) : Option (Nat × Prog) :=
  mainLoop synthAt (List.range' 3 (maxdep - 2))

end Validate

end ValidationsSynth

namespace ValidationsSynth

/-! ### Helper lemmas -/

/-- `has_failed_examples` is the existence of a non-reproduced example. -/
theorem has_failed_examples_iff {Prog α β : Type} [DecidableEq β]
    (ev : Prog → α → β) (examples : List (Example α β)) (prog : Prog) :
    ExampleDecider.has_failed_examples ev examples prog = true ↔
      ∃ x ∈ examples, x.output ≠ ev prog x.input := by
  simp [ExampleDecider.has_failed_examples, ExampleDecider.equal_output,
    List.any_eq_true]

/-- The first-minimum fold of `smallest_regex` stays inside the list. -/
theorem foldl_min_mem {PC : Type} (key : PC → Nat) (ps : List PC) (p : PC) :
    ps.foldl (fun best q => if key q < key best then q else best) p ∈ p :: ps := by
  induction ps generalizing p with
  | nil => simp
  | cons a as ih =>
    simp only [List.foldl_cons]
    by_cases h : key a < key p
    · simp only [if_pos h]
      have := ih a
      simp only [List.mem_cons] at this ⊢
      tauto
    · simp only [if_neg h]
      have := ih p
      simp only [List.mem_cons] at this ⊢
      tauto

/-- The first-minimum fold of `smallest_regex` attains the least key. -/
theorem foldl_min_le {PC : Type} (key : PC → Nat) (ps : List PC) (p : PC) :
    ∀ q ∈ p :: ps,
      key (ps.foldl (fun best q => if key q < key best then q else best) p) ≤
        key q := by
  induction ps generalizing p with
  | nil =>
    intro q hq
    rw [List.mem_singleton] at hq
    subst hq
    exact le_refl _
  | cons a as ih =>
    intro q hq
    simp only [List.foldl_cons]
    by_cases h : key a < key p
    · simp only [if_pos h]
      rcases List.mem_cons.1 hq with rfl | hq2
      · exact le_trans (ih a a (List.mem_cons_self a as)) (le_of_lt h)
      · exact ih a q hq2
    · simp only [if_neg h]
      rcases List.mem_cons.1 hq with rfl | hq2
      · exact ih q q (List.mem_cons_self q as)
      · rcases List.mem_cons.1 hq2 with rfl | hq3
        · exact le_trans (ih p p (List.mem_cons_self p as)) (Nat.le_of_not_lt h)
        · exact ih p q (List.mem_cons_of_mem p hq3)

/-- Closed form of the `unknown`-resolution fold: matched candidates are
appended (in order) to `keep_if_valid`, the rest to `keep_if_invalid`. -/
theorem resolve_unknown_eq {PC : Type} (evalI : PC → String)
    (fm : String → String → Bool) (din : String) :
    ∀ (unknown kv ki : List PC),
      MultipleSynthesizer.resolve_unknown evalI fm din kv ki unknown =
        (kv ++ unknown.filter (fun r => fm (evalI r) din),
         ki ++ unknown.filter (fun r => ! fm (evalI r) din)) := by
  intro unknown
  induction unknown with
  | nil =>
    intro kv ki
    simp [MultipleSynthesizer.resolve_unknown]
  | cons r rs ih =>
    intro kv ki
    by_cases h : fm (evalI r) din = true
    · rw [show MultipleSynthesizer.resolve_unknown evalI fm din kv ki (r :: rs) =
          MultipleSynthesizer.resolve_unknown evalI fm din (kv ++ [r]) ki rs from by
        simp [MultipleSynthesizer.resolve_unknown, h], ih]
      simp [List.filter_cons, h, List.append_assoc]
    · rw [show MultipleSynthesizer.resolve_unknown evalI fm din kv ki (r :: rs) =
          MultipleSynthesizer.resolve_unknown evalI fm din kv (ki ++ [r]) rs from by
        simp [MultipleSynthesizer.resolve_unknown, h], ih]
      simp only [Bool.not_eq_true] at h
      simp [List.filter_cons, h, List.append_assoc]

/-- `validate.py` depth-loop characterization: no solution exactly when every
depth in the list fails. -/
theorem mainLoop_eq_none_iff {Prog : Type} (synthAt : Nat → Option Prog) :
    ∀ deps : List Nat,
      Validate.mainLoop synthAt deps = none ↔ ∀ d ∈ deps, synthAt d = none := by
  intro deps
  induction deps with
  | nil => simp [Validate.mainLoop]
  | cons dep rest ih =>
    rw [Validate.mainLoop]
    cases hdep : synthAt dep with
    | some program => simp [hdep]
    | none => simp [hdep, ih]

/-- validate.py's driver (src/validate.py lines 39-55) does iterate the depth
bound in increasing order 3,4,5,6, returns the first success immediately, and
reports no solution exactly when every depth fails. -/
theorem validate_main_depths {Prog : Type} (synthAt : Nat → Option Prog) :
    (Validate.main synthAt = none ↔ ∀ d ∈ [3, 4, 5, 6], synthAt d = none) ∧
    (∀ p, synthAt 3 = some p → Validate.main synthAt = some (3, p)) := by
  constructor
  · rw [show Validate.main synthAt = Validate.mainLoop synthAt [3, 4, 5, 6] from rfl]
    exact mainLoop_eq_none_iff synthAt [3, 4, 5, 6]
  · intro p hp
    rw [show Validate.main synthAt = Validate.mainLoop synthAt [3, 4, 5, 6] from rfl,
      Validate.mainLoop, hp]

end ValidationsSynth

namespace ValidationsSynth

/-! ### Claim theorems -/

/-- C1: for every program and every non-empty recorded example list,
`ExampleDecider.analyze` returns Ok iff the interpreter's evaluation of the
program on each recorded Example's input equals that Example's recorded label,
and returns Bad whenever some label is not reproduced. -/
theorem C1_analyze_ok_iff_examples_reproduced {Prog α β : Type} [DecidableEq β]
    (Preds : Type) (ev : Prog → α → β) (examples : List (Example α β))
    (prog : Prog) (hne : examples ≠ []) :
    (ExampleDecider.analyze Preds ev examples prog = .ok ↔
      ∀ x ∈ examples, ev prog x.input = x.output) ∧
    ((∃ x ∈ examples, ev prog x.input ≠ x.output) →
      ExampleDecider.analyze Preds ev examples prog = .bad none) := by
  have key := has_failed_examples_iff ev examples prog
  have h1 : ExampleDecider.analyze Preds ev examples prog = Result.ok ↔
      ExampleDecider.has_failed_examples ev examples prog = false := by
    by_cases h : ExampleDecider.has_failed_examples ev examples prog = true
    · simp [ExampleDecider.analyze, h]
    · simp only [Bool.not_eq_true] at h
      simp [ExampleDecider.analyze, h]
  have h2 : ExampleDecider.has_failed_examples ev examples prog = false ↔
      ∀ x ∈ examples, ev prog x.input = x.output := by
    rw [← Bool.not_eq_true, key]
    push_neg
    constructor
    · intro h x hx
      exact (h x hx).symm
    · intro h x hx
      exact (h x hx).symm
  refine ⟨h1.trans h2, ?_⟩
  rintro ⟨x, hx, hnex⟩
  have hf : ExampleDecider.has_failed_examples ev examples prog = true :=
    key.2 ⟨x, hx, fun hh => hnex hh.symm⟩
  simp [ExampleDecider.analyze, hf]

/-- Witness for C1 at a concrete instance (one example, reproduced). -/
theorem C1_witness :
    ((ExampleDecider.analyze Unit (fun (_ : Unit) (n : Nat) => n + 1)
        [⟨1, 2⟩] () = Result.ok) ↔
      ∀ x ∈ [(⟨1, 2⟩ : Example Nat Nat)],
        (fun (_ : Unit) (n : Nat) => n + 1) () x.input = x.output) ∧
    ((∃ x ∈ [(⟨1, 2⟩ : Example Nat Nat)],
        (fun (_ : Unit) (n : Nat) => n + 1) () x.input ≠ x.output) →
      ExampleDecider.analyze Unit (fun (_ : Unit) (n : Nat) => n + 1)
        [⟨1, 2⟩] () = Result.bad none) :=
  C1_analyze_ok_iff_examples_reproduced Unit (fun _ n => n + 1) [⟨1, 2⟩] ()
    (List.cons_ne_nil _ _)

/-- C10: the existential check and the filtering check agree —
`has_failed_examples` is true exactly when `get_failed_examples` is non-empty,
and `analyze` is Bad exactly when `get_failed_examples` is non-empty. -/
theorem C10_failed_checks_agree {Prog α β : Type} [DecidableEq β]
    (Preds : Type) (ev : Prog → α → β) (examples : List (Example α β))
    (prog : Prog) :
    (ExampleDecider.has_failed_examples ev examples prog = true ↔
      ExampleDecider.get_failed_examples ev examples prog ≠ []) ∧
    (ExampleDecider.analyze Preds ev examples prog = .bad none ↔
      ExampleDecider.get_failed_examples ev examples prog ≠ []) := by
  have h1 : ExampleDecider.has_failed_examples ev examples prog = true ↔
      ExampleDecider.get_failed_examples ev examples prog ≠ [] := by
    rw [ExampleDecider.has_failed_examples, ExampleDecider.get_failed_examples,
      Ne, List.filter_eq_nil_iff, List.any_eq_true]
    push_neg
    rfl
  refine ⟨h1, ?_⟩
  rw [← h1]
  by_cases h : ExampleDecider.has_failed_examples ev examples prog = true
  · simp [ExampleDecider.analyze, h]
  · simp only [Bool.not_eq_true] at h
    simp [ExampleDecider.analyze, h]

/-- C3: `add_example` appends; for a fixed program a Bad verdict stays Bad
under any extension of the example list (acceptance is monotonically
non-relaxing); and the distinguish-phase operations never remove or reorder
recorded examples — the indistinguishable branch leaves them unchanged and an
oracle answer only appends one example. -/
theorem C3_examples_append_only_bad_monotone {Prog α β : Type} [DecidableEq β]
    (Preds : Type) (ev : Prog → α → β) (exs more : List (Example α β))
    (prog : Prog) (i : α) (o : β) {PC : Type} (fm : String → String → Bool)
    (gt din : String) (kv ki : List PC) (pe : PC → String) (st : SynthState PC)
    (hbad : ExampleDecider.analyze Preds ev exs prog = .bad none) :
    ExampleDecider.add_example exs i o = exs ++ [⟨i, o⟩] ∧
    ExampleDecider.analyze Preds ev (exs ++ more) prog = .bad none ∧
    (MultipleSynthesizer.auto_distinguish fm gt din kv ki st).examples =
      st.examples ++ [⟨[din], fm gt din⟩] ∧
    (MultipleSynthesizer.indist_branch pe st).examples = st.examples := by
  have hf : ExampleDecider.has_failed_examples ev exs prog = true := by
    by_contra h
    simp only [Bool.not_eq_true] at h
    simp [ExampleDecider.analyze, h] at hbad
  refine ⟨rfl, ?_, ?_, rfl⟩
  · have hmore : ExampleDecider.has_failed_examples ev (exs ++ more) prog = true := by
      rw [ExampleDecider.has_failed_examples] at hf ⊢
      rw [List.any_append, hf, Bool.true_or]
    simp [ExampleDecider.analyze, hmore]
  · by_cases h : fm gt din = true
    · simp [MultipleSynthesizer.auto_distinguish, h, ExampleDecider.add_example]
    · simp only [Bool.not_eq_true] at h
      simp [MultipleSynthesizer.auto_distinguish, h, ExampleDecider.add_example]

/-- Witness for C3 at a concrete instance (a failing example stays failing
after appending another example). -/
theorem C3_witness :
    ExampleDecider.add_example [(⟨1, 3⟩ : Example Nat Nat)] 1 2 =
      [⟨1, 3⟩] ++ [⟨1, 2⟩] ∧
    ExampleDecider.analyze Unit (fun (_ : Unit) (n : Nat) => n + 1)
      ([⟨1, 3⟩] ++ [⟨2, 3⟩]) () = Result.bad none ∧
    (MultipleSynthesizer.auto_distinguish (fun _ _ => true) "gt" "in"
        ([0] : List Nat) [1] ⟨[5], 0, [], 0, 0, false⟩).examples =
      (⟨[5], 0, [], 0, 0, false⟩ : SynthState Nat).examples ++
        [⟨["in"], (fun _ _ => true) "gt" "in"⟩] ∧
    (MultipleSynthesizer.indist_branch (fun _ : Nat => "r")
        ⟨[5], 0, [], 0, 0, false⟩).examples =
      (⟨[5], 0, [], 0, 0, false⟩ : SynthState Nat).examples :=
  C3_examples_append_only_bad_monotone Unit (fun _ n => n + 1) [⟨1, 3⟩]
    [⟨2, 3⟩] () 1 2 (fun _ _ => true) "gt" "in" [0] [1] (fun _ => "r")
    ⟨[5], 0, [], 0, 0, false⟩ (by decide)

end ValidationsSynth

namespace ValidationsSynth

/-- C2 (evaluation of the code bug): whenever the depth-3 search completes
normally, `KTreeSynthesizer.synthesize` raises `AttributeError("solutions")`
instead of iterating the depths and returning a result: line 26 of
ktree_synthesizer.py reads `self.solutions`, an attribute nothing ever
assigns (the base class assigns `self.programs`), so the first depth
iteration faults regardless of what the search found.  (validate.py's driver
does implement the claimed iteration — see `validate_main_depths`.) -/
theorem C2_ktree_synthesize_attribute_error {Prog Caps IErr Preds : Type}
    (P : ForestParams Prog Caps IErr Preds) (enumStream : Nat → List Prog)
    (st st3 : SynthState (Prog × Caps))
    (h : MultipleSynthesizer.try_for_depth P (enumStream 3) st = .ok st3) :
    KTreeSynthesizer.synthesize P enumStream st =
      .error (KErr.attributeError "solutions") := by
  have hd : KTreeSynthesizer.depths = [3, 4, 5, 6] := rfl
  have hattr : st3.getListAttr "solutions" = Except.error "solutions" := by
    rw [SynthState.getListAttr, if_neg (by decide)]
  simp only [KTreeSynthesizer.synthesize, hd, KTreeSynthesizer.synthesizeLoop,
    h, hattr]

/-- Witness for C2 at a concrete instance (empty enumeration at every
depth). -/
theorem C2_witness :
    KTreeSynthesizer.synthesize
      (⟨fun _ => Except.error (), fun _ => none, fun _ => ⟨none, [], [], []⟩,
        fun _ => "", fun _ => "", fun _ _ => false, fun _ _ _ s => s⟩ :
        ForestParams Unit Unit Unit Unit)
      (fun _ => []) ⟨[], 0, [], 0, 0, false⟩ =
      .error (KErr.attributeError "solutions") :=
  C2_ktree_synthesize_attribute_error _ _ _ ⟨[], 0, [], 0, 1, false⟩ rfl

/-- C4 is false as stated: of two candidates where the first has fewer AST
nodes (1 against 5) but a longer rendering ("aaaa" against "bb"), the code's
indistinguishable branch keeps the second (shortest rendered form), while the
claimed rule — fewest AST nodes first — selects the first. -/
theorem C4_counterexample :
    (MultipleSynthesizer.indist_branch
        (fun n : Nat => if n = 0 then "aaaa" else "bb")
        ⟨[0, 1], 0, [], 0, 0, false⟩).programs = [1] ∧
    MultipleSynthesizer.claimed_smallest (fun n : Nat => if n = 0 then 1 else 5)
      (fun n : Nat => if n = 0 then "aaaa" else "bb") [0, 1] = some 0 := by
  decide

/-- C4 (amended): when the Distinguisher reports indistinguishable on a
non-empty candidate set, the branch keeps exactly one candidate — the first
one whose rendered form is shortest (AST node count plays no part) — and
increments the indistinguishable counter by one, touching nothing else. -/
theorem C4_indistinguishable_keeps_shortest_rendered {PC : Type}
    (pe : PC → String) (st : SynthState PC) (hne : st.programs ≠ []) :
    ∃ p, MultipleSynthesizer.smallest_regex pe st.programs = some p ∧
      p ∈ st.programs ∧
      (∀ q ∈ st.programs, (pe p).length ≤ (pe q).length) ∧
      MultipleSynthesizer.indist_branch pe st =
        { st with indistinguishable := st.indistinguishable + 1,
                  programs := [p] } := by
  obtain ⟨a, as, hcons⟩ := List.exists_cons_of_ne_nil hne
  refine ⟨as.foldl
      (fun best q => if (pe q).length < (pe best).length then q else best) a,
    ?_, ?_, ?_, ?_⟩
  · rw [hcons]
    rfl
  · rw [hcons]
    exact foldl_min_mem (fun q => (pe q).length) as a
  · rw [hcons]
    exact foldl_min_le (fun q => (pe q).length) as a
  · rw [MultipleSynthesizer.indist_branch, hcons]
    rfl

/-- Witness for C4 (amended) at a concrete one-candidate state. -/
theorem C4_witness :
    ∃ p, MultipleSynthesizer.smallest_regex (fun _ : Nat => "r")
        (⟨[7], 0, [], 0, 0, false⟩ : SynthState Nat).programs = some p ∧
      p ∈ (⟨[7], 0, [], 0, 0, false⟩ : SynthState Nat).programs ∧
      (∀ q ∈ (⟨[7], 0, [], 0, 0, false⟩ : SynthState Nat).programs,
        ((fun _ : Nat => "r") p).length ≤ ((fun _ : Nat => "r") q).length) ∧
      MultipleSynthesizer.indist_branch (fun _ : Nat => "r")
          ⟨[7], 0, [], 0, 0, false⟩ =
        { (⟨[7], 0, [], 0, 0, false⟩ : SynthState Nat) with
          indistinguishable :=
            (⟨[7], 0, [], 0, 0, false⟩ : SynthState Nat).indistinguishable + 1,
          programs := [p] } :=
  C4_indistinguishable_keeps_shortest_rendered (fun _ => "r")
    ⟨[7], 0, [], 0, 0, false⟩ (by decide)

/-- C5: when a distinguishing input is found, every candidate of the
Distinguisher's undetermined set is resolved before the oracle is consulted —
appended to keep_if_valid exactly when its rendered regex full-matches the
distinguishing input and to keep_if_invalid otherwise — and the oracle is
consulted exactly once (hence at most once) for the input, receiving the fully
resolved partitions. -/
theorem C5_unknown_resolved_before_single_oracle_query {PC : Type}
    (evalI : PC → String) (fm : String → String → Bool) (din : String)
    (kv ki unk : List PC)
    (oracle : String → List PC → List PC → SynthState PC → SynthState PC)
    (pe : PC → String) (st : SynthState PC) :
    MultipleSynthesizer.resolve_unknown evalI fm din kv ki unk =
      (kv ++ unk.filter (fun r => fm (evalI r) din),
       ki ++ unk.filter (fun r => ! fm (evalI r) din)) ∧
    MultipleSynthesizer.distinguishWith evalI fm oracle pe
        ⟨some din, kv, ki, unk⟩ st =
      (oracle din (kv ++ unk.filter (fun r => fm (evalI r) din))
        (ki ++ unk.filter (fun r => ! fm (evalI r) din))
        { st with num_interactions := st.num_interactions + 1 }, 1) := by
  have h := resolve_unknown_eq evalI fm din unk kv ki
  refine ⟨h, ?_⟩
  show (oracle din
      (MultipleSynthesizer.resolve_unknown evalI fm din kv ki unk).1
      (MultipleSynthesizer.resolve_unknown evalI fm din kv ki unk).2
      { st with num_interactions := st.num_interactions + 1 }, 1) = _
  rw [h]

/-- C6: in automatic-oracle mode the answer for a distinguishing input is the
full-match of the input against the ground-truth pattern, with no human
interaction: on a full match the input is recorded via add_example with label
true and the candidate set becomes keep_if_valid; otherwise it is recorded
with label false and the candidate set becomes keep_if_invalid. -/
theorem C6_auto_oracle_fullmatch {PC : Type} (fm : String → String → Bool)
    (gt din : String) (kv ki : List PC) (st : SynthState PC) :
    (fm gt din = true →
      MultipleSynthesizer.auto_distinguish fm gt din kv ki st =
        { st with
          examples := ExampleDecider.add_example st.examples [din] true,
          programs := kv }) ∧
    (fm gt din = false →
      MultipleSynthesizer.auto_distinguish fm gt din kv ki st =
        { st with
          examples := ExampleDecider.add_example st.examples [din] false,
          programs := ki }) := by
  constructor
  · intro h
    simp [MultipleSynthesizer.auto_distinguish, h]
  · intro h
    simp [MultipleSynthesizer.auto_distinguish, h]

/-- Witness for C6: both oracle outcomes at concrete inputs. -/
theorem C6_witness :
    MultipleSynthesizer.auto_distinguish (fun _ _ => true) "gt" "in"
        [0] [1] (⟨[5], 0, [], 0, 0, false⟩ : SynthState Nat) =
      { (⟨[5], 0, [], 0, 0, false⟩ : SynthState Nat) with
        examples := ExampleDecider.add_example
          (⟨[5], 0, [], 0, 0, false⟩ : SynthState Nat).examples ["in"] true,
        programs := [0] } ∧
    MultipleSynthesizer.auto_distinguish (fun _ _ => false) "gt" "in"
        [0] [1] (⟨[5], 0, [], 0, 0, false⟩ : SynthState Nat) =
      { (⟨[5], 0, [], 0, 0, false⟩ : SynthState Nat) with
        examples := ExampleDecider.add_example
          (⟨[5], 0, [], 0, 0, false⟩ : SynthState Nat).examples ["in"] false,
        programs := [1] } :=
  ⟨(C6_auto_oracle_fullmatch (fun _ _ => true) "gt" "in" [0] [1] _).1 rfl,
   (C6_auto_oracle_fullmatch (fun _ _ => false) "gt" "in" [0] [1] _).2 rfl⟩

end ValidationsSynth

namespace ValidationsSynth

/-- C7 is false as stated for `MultipleSynthesizer.try_for_depth` (one of the
two per-depth loops the claim covers): with a decider whose `analyze` raises
an interpreter error on the single enumerated candidate, the error propagates
out of the loop — the method body has no try/except. -/
theorem C7_counterexample :
    MultipleSynthesizer.try_for_depth
      (⟨fun _ => Except.error (), fun _ => none, fun _ => ⟨none, [], [], []⟩,
        fun _ => "", fun _ => "", fun _ _ => false, fun _ _ _ s => s⟩ :
        ForestParams Unit Unit Unit Unit)
      [()] ⟨[], 0, [], 0, 0, false⟩ = Except.error () := by
  rfl

/-- C7 (amended): in `SingleSynthesizer.synthesize` an interpreter error
raised while a candidate is analyzed is caught, converted through the
decider's `analyze_interpreter_error` into predicates fed to the enumerator's
`update`, and the loop continues with the next candidate, never surfacing the
error (the result carries no error outcome); in
`MultipleSynthesizer.try_for_depth`, by contrast, an interpreter error from
`analyze` is not caught and propagates out of the loop. -/
theorem C7_single_catches_try_for_depth_propagates {Prog IErr Preds : Type}
    (analyze : Prog → Except IErr (Result Preds)) (aie : IErr → Option Preds)
    (p : Prog) (rest : List Prog) (e : IErr) (hp : analyze p = .error e)
    {Prog2 Caps IErr2 Preds2 : Type} (P : ForestParams Prog2 Caps IErr2 Preds2)
    (q : Prog2) (stream : List Prog2) (st : SynthState (Prog2 × Caps))
    (i : IErr2) (hq : P.analyze q = .error i) (hdie : st.die = false) :
    SingleSynthesizer.synthesize analyze aie (p :: rest) =
      ((SingleSynthesizer.synthesize analyze aie rest).1,
        aie e :: (SingleSynthesizer.synthesize analyze aie rest).2) ∧
    MultipleSynthesizer.try_for_depth P (q :: stream) st = .error i := by
  constructor
  · simp only [SingleSynthesizer.synthesize, hp]
  · simp only [MultipleSynthesizer.try_for_depth, hdie, hq, Bool.false_eq_true,
      if_false]

/-- Witness for C7 (amended) at concrete erroring deciders. -/
theorem C7_witness :
    SingleSynthesizer.synthesize (fun _ : Nat => Except.error 7)
        (fun _ : Nat => (none : Option Unit)) (5 :: []) =
      ((SingleSynthesizer.synthesize (fun _ : Nat => Except.error 7)
          (fun _ : Nat => (none : Option Unit)) []).1,
        (fun _ : Nat => (none : Option Unit)) 7 ::
          (SingleSynthesizer.synthesize (fun _ : Nat => Except.error 7)
            (fun _ : Nat => (none : Option Unit)) []).2) ∧
    MultipleSynthesizer.try_for_depth
        (⟨fun _ => Except.error 7, fun _ => none, fun _ => ⟨none, [], [], []⟩,
          fun _ => "", fun _ => "", fun _ _ => false, fun _ _ _ s => s⟩ :
          ForestParams Nat Unit Nat Unit)
        (9 :: []) ⟨[], 0, [], 0, 0, false⟩ = Except.error 7 :=
  C7_single_catches_try_for_depth_propagates (fun _ => Except.error 7)
    (fun _ => none) 5 [] 7 rfl _ 9 [] ⟨[], 0, [], 0, 0, false⟩ 7 rfl rfl

/-- C8 is false as stated: classification is not whitespace-insensitive.  The
affirmative token "yes" preceded by a space is not recognized — only trailing
whitespace is stripped — so `interact` treats it as an invalid answer and
reprompts; trailing-whitespace and case variants are recognized. -/
theorem C8_counterexample :
    MultipleSynthesizer.classify " yes" = none ∧
    MultipleSynthesizer.classify "YES " = some true ∧
    MultipleSynthesizer.interact "d" ([] : List Nat) []
      ⟨[], 0, [], 0, 0, false⟩ [" yes"] = none := by
  decide

/-- C8 (amended): an interactive answer token is classified against the
affirmative and negative spelling sets case-insensitively and ignoring
trailing (not leading) whitespace — classification depends only on
`x.lower().rstrip()`; an unrecognized line causes a reprompt with no side
effects (no example added, candidate set unchanged); a recognized line exits
the loop, recording the example and replacing the candidate set with the
matching partition; and the loop never exits on unrecognized input alone. -/
theorem C8_interact_classification {PC : Type} (din : String)
    (kv ki : List PC) (st : SynthState PC) (x s t : String)
    (rest answers : List String) :
    (MultipleSynthesizer.str_rstrip (MultipleSynthesizer.str_lower s) =
        MultipleSynthesizer.str_rstrip (MultipleSynthesizer.str_lower t) →
      MultipleSynthesizer.classify s = MultipleSynthesizer.classify t) ∧
    (MultipleSynthesizer.classify x = none →
      MultipleSynthesizer.interact din kv ki st (x :: rest) =
        MultipleSynthesizer.interact din kv ki st rest) ∧
    (MultipleSynthesizer.classify x = some true →
      MultipleSynthesizer.interact din kv ki st (x :: rest) =
        some { st with
               examples := ExampleDecider.add_example st.examples [din] true,
               programs := kv }) ∧
    (MultipleSynthesizer.classify x = some false →
      MultipleSynthesizer.interact din kv ki st (x :: rest) =
        some { st with
               examples := ExampleDecider.add_example st.examples [din] false,
               programs := ki }) ∧
    ((∀ a ∈ answers, MultipleSynthesizer.classify a = none) →
      MultipleSynthesizer.interact din kv ki st answers = none) := by
  refine ⟨?_, ?_, ?_, ?_, ?_⟩
  · intro h
    simp only [MultipleSynthesizer.classify, h]
  · intro h
    rw [MultipleSynthesizer.interact]
    by_cases hy : MultipleSynthesizer.str_rstrip (MultipleSynthesizer.str_lower x) ∈
        MultipleSynthesizer.yes_values
    · exfalso
      simp [MultipleSynthesizer.classify, hy] at h
    · by_cases hn : MultipleSynthesizer.str_rstrip (MultipleSynthesizer.str_lower x) ∈
          MultipleSynthesizer.no_values
      · exfalso
        simp [MultipleSynthesizer.classify, hy, hn] at h
      · simp [hy, hn]
  · intro h
    by_cases hy : MultipleSynthesizer.str_rstrip (MultipleSynthesizer.str_lower x) ∈
        MultipleSynthesizer.yes_values
    · rw [MultipleSynthesizer.interact]
      simp [hy]
    · exfalso
      by_cases hn : MultipleSynthesizer.str_rstrip (MultipleSynthesizer.str_lower x) ∈
          MultipleSynthesizer.no_values
      · simp [MultipleSynthesizer.classify, hy, hn] at h
      · simp [MultipleSynthesizer.classify, hy, hn] at h
  · intro h
    by_cases hy : MultipleSynthesizer.str_rstrip (MultipleSynthesizer.str_lower x) ∈
        MultipleSynthesizer.yes_values
    · exfalso
      simp [MultipleSynthesizer.classify, hy] at h
    · by_cases hn : MultipleSynthesizer.str_rstrip (MultipleSynthesizer.str_lower x) ∈
          MultipleSynthesizer.no_values
      · rw [MultipleSynthesizer.interact]
        simp [hy, hn]
      · exfalso
        simp [MultipleSynthesizer.classify, hy, hn] at h
  · induction answers with
    | nil =>
      intro _
      rfl
    | cons a as ih =>
      intro hall
      have ha := hall a (List.mem_cons_self a as)
      rw [MultipleSynthesizer.interact]
      by_cases hy : MultipleSynthesizer.str_rstrip (MultipleSynthesizer.str_lower a) ∈
          MultipleSynthesizer.yes_values
      · exfalso
        simp [MultipleSynthesizer.classify, hy] at ha
      · by_cases hn : MultipleSynthesizer.str_rstrip (MultipleSynthesizer.str_lower a) ∈
            MultipleSynthesizer.no_values
        · exfalso
          simp [MultipleSynthesizer.classify, hy, hn] at ha
        · rw [if_neg (by simpa using hy), if_neg (by simpa using hn)]
          exact ih (fun b hb => hall b (List.mem_cons_of_mem a hb))

/-- Witness for C8 (amended): each clause applied at a concrete answer. -/
theorem C8_witness :
    MultipleSynthesizer.classify "A" = MultipleSynthesizer.classify "a " ∧
    MultipleSynthesizer.interact "d" ([0] : List Nat) [1]
        ⟨[], 0, [], 0, 0, false⟩ ["?"] =
      MultipleSynthesizer.interact "d" [0] [1] ⟨[], 0, [], 0, 0, false⟩ [] ∧
    MultipleSynthesizer.interact "d" ([0] : List Nat) [1]
        ⟨[], 0, [], 0, 0, false⟩ ["Y"] =
      some { (⟨[], 0, [], 0, 0, false⟩ : SynthState Nat) with
             examples := ExampleDecider.add_example
               (⟨[], 0, [], 0, 0, false⟩ : SynthState Nat).examples ["d"] true,
             programs := [0] } ∧
    MultipleSynthesizer.interact "d" ([0] : List Nat) [1]
        ⟨[], 0, [], 0, 0, false⟩ ["No"] =
      some { (⟨[], 0, [], 0, 0, false⟩ : SynthState Nat) with
             examples := ExampleDecider.add_example
               (⟨[], 0, [], 0, 0, false⟩ : SynthState Nat).examples ["d"] false,
             programs := [1] } ∧
    MultipleSynthesizer.interact "d" ([0] : List Nat) [1]
        ⟨[], 0, [], 0, 0, false⟩ ["?", "!"] = none := by
  refine ⟨?_, ?_, ?_, ?_, ?_⟩
  · exact (C8_interact_classification "d" ([] : List Nat) []
      ⟨[], 0, [], 0, 0, false⟩ "" "A" "a " [] []).1 (by decide)
  · exact (C8_interact_classification "d" [0] [1] ⟨[], 0, [], 0, 0, false⟩
      "?" "" "" [] []).2.1 (by decide)
  · exact (C8_interact_classification "d" [0] [1] ⟨[], 0, [], 0, 0, false⟩
      "Y" "" "" [] []).2.2.1 (by decide)
  · exact (C8_interact_classification "d" [0] [1] ⟨[], 0, [], 0, 0, false⟩
      "No" "" "" [] []).2.2.2.1 (by decide)
  · exact (C8_interact_classification "d" [0] [1] ⟨[], 0, [], 0, 0, false⟩
      "" "" "" [] ["?", "!"]).2.2.2.2 (by decide)

/-- C9: configuration faults are fatal at construction time, before any search
begins — in automatic-interaction mode an empty or non-regex ground truth
fails the `__init__` assertion, and an empty example list makes
`ExampleDecider.__init__` raise `ValueError`; both constructions yield an
error, so no enumerator exists and no enumeration starts. -/
theorem C9_construction_faults_fatal {α β : Type} (is_regex : String → Bool)
    (gt : String) (h : gt = "" ∨ is_regex gt = false) :
    MultipleSynthesizer.initCheck is_regex true gt =
      .error InitErr.assertionError ∧
    ExampleDecider.init ([] : List (Example α β)) =
      .error InitErr.valueError := by
  constructor
  · rcases h with rfl | h
    · simp [MultipleSynthesizer.initCheck]
    · simp [MultipleSynthesizer.initCheck, h]
  · rfl

/-- Witness for C9 at a concrete instance (empty ground truth, empty example
list). -/
theorem C9_witness :
    MultipleSynthesizer.initCheck (fun _ => true) true "" =
      .error InitErr.assertionError ∧
    ExampleDecider.init ([] : List (Example Nat Nat)) =
      .error InitErr.valueError :=
  C9_construction_faults_fatal (fun _ => true) "" (Or.inl rfl)

end ValidationsSynth
